import Mathlib

/-!
Shallow embedding of `core/domain/suggestion_jobs_one_off.py` (Oppia):
four one-off map-reduce jobs over stored suggestion records.

The file under verification is glue code over external collaborators
(the map-reduce framework, the suggestion domain services and the HTML
validation service).  Those collaborators are modelled abstractly by an
`Env` structure of functions; the four jobs' `map` and `reduce`
callbacks are translated line by line into pure Lean functions.  Each
callback returns the list of key/value pairs it yields together with an
explicit `DatastoreEffect` recording whether (and how) it wrote the
record back to the datastore.
-/

/-- Python values as they appear in the yields of these jobs:
strings, integers, pairs, lists and string-keyed dictionaries. -/
inductive PyVal where
  | str : String → PyVal
  | int : Int → PyVal
  | pair : PyVal → PyVal → PyVal
  | list : List PyVal → PyVal
  | dict : List (String × PyVal) → PyVal

/-- Entity classes a job can map over (`entity_classes_to_map_over`).
Only `GeneralSuggestionModel` is used by this file. -/
inductive EntityClass where
  | GeneralSuggestionModel
deriving Repr, DecidableEq

/-- The stored datastore record (`suggestion_models.GeneralSuggestionModel`),
restricted to the fields this file reads or writes.  `languageCode` is the
raw ndb property (`none` when never initialised); `lastUpdated` stands for
the record's last-updated timestamp. -/
structure GeneralSuggestionModel where
  id : String
  targetType : String
  targetId : String
  suggestionType : String
  deleted : Bool
  languageCode : Option String
  changeCmd : PyVal
  lastUpdated : Nat

/-- The suggestion domain object returned by the suggestion services,
restricted to the fields this file reads or assigns.  `payload`
distinguishes suggestions that agree on the listed fields, so that the
abstract environment functions may depend on the whole object. -/
structure SuggestionDomain where
  suggestionType : String
  languageCode : Option String
  changeQuestionDictLanguageCode : String
  changeLanguageCode : String
  payload : Nat
deriving Repr, DecidableEq

/-- Abstract external collaborators: the suggestion services and the HTML
validation service.  `validate s = some e` means `s.validate()` raises an
exception with message `e`; `convertHtmlInSuggestionChange` is
`suggestion.convert_html_in_suggestion_change` applied with the external
conversion function `add_math_content_to_math_rte_components`;
`changeToDict` is `suggestion.change.to_dict()`. -/
structure Env where
  getSuggestionFromModel : GeneralSuggestionModel → SuggestionDomain
  getSuggestionById : String → SuggestionDomain
  validate : SuggestionDomain → Option String
  getAllHtmlContentStrings : SuggestionDomain → List String
  checkForMathComponentInHtml : String → Bool
  validateMathTagsInHtmlWithAttributeMathContent : String → List PyVal
  validateSvgFilenamesInMathRichText : String → String → String → List PyVal
  convertHtmlInSuggestionChange : SuggestionDomain → SuggestionDomain
  changeToDict : SuggestionDomain → PyVal

/-- The datastore effect of one `map` invocation: either no write, or a
single `record.put(...)` carrying the written record and the value of the
`update_last_updated_time` keyword (a plain `put()` uses `true`). -/
inductive DatastoreEffect where
  | noWrite
  | put (record : GeneralSuggestionModel) (updateLastUpdatedTime : Bool)

/-- Modelled from the spec: the datastore's `put` semantics for the
last-updated timestamp, which is owned by the external storage platform.
A `put` with `update_last_updated_time=True` stamps the current time;
with `update_last_updated_time=False` it keeps the written record's
existing timestamp; no write leaves the stored record untouched. -/
def appliedLastUpdated (now : Nat) (old : GeneralSuggestionModel) :
    DatastoreEffect → Nat
  | DatastoreEffect.noWrite => old.lastUpdated
  | DatastoreEffect.put r b => if b then now else r.lastUpdated

def TARGET_TYPE_EXPLORATION : String := "exploration"
def SUGGESTION_TYPE_EDIT_STATE_CONTENT : String :=
  "edit_exploration_state_content"
def SUGGESTION_TYPE_ADD_QUESTION : String := "add_question"
def SUGGESTION_TYPE_TRANSLATE_CONTENT : String := "translate_content"
def ENTITY_TYPE_EXPLORATION : String := "exploration"

/-- Python truthiness of an optional string property
(`None` and the empty string are falsy). -/
def langTruthy : Option String → Bool
  | none => false
  | some s => s ≠ ""

/-- Python `str` of a list of strings, as `%s`-formatting renders it. -/
def pyStrListRepr (xs : List String) : String :=
  "[" ++ String.intercalate ", " (xs.map (fun s => "'" ++ s ++ "'")) ++ "]"

namespace SuggestionMathRteAuditOneOffJob

def entityClassesToMapOver : List EntityClass :=
  [EntityClass.GeneralSuggestionModel]

/-- `SuggestionMathRteAuditOneOffJob.map`. -/
def mapFn (env : Env) (item : GeneralSuggestionModel) :
    List (String × PyVal) × DatastoreEffect :=
  let suggestion := env.getSuggestionFromModel item
  let html_string_list := env.getAllHtmlContentStrings suggestion
  let html_string := String.join html_string_list
  if env.checkForMathComponentInHtml html_string then
    ([("Suggestion with Math", PyVal.str item.id)], DatastoreEffect.noWrite)
  else
    ([], DatastoreEffect.noWrite)

/-- `SuggestionMathRteAuditOneOffJob.reduce`: yields a single formatted
string (the Python `yield ('...' % ...)` yields a string, not a pair). -/
def reduceFn (_key : String) (values : List String) :
    List String × DatastoreEffect :=
  ([toString values.length ++
      " suggestions have Math components in them, with IDs: " ++
      pyStrListRepr values],
    DatastoreEffect.noWrite)

end SuggestionMathRteAuditOneOffJob

namespace SuggestionSvgFilenameValidationOneOffJob

def ERROR_KEY : String := "invalid-math-content-attribute-in-math-tag"
def INVALID_SVG_FILENAME_KEY : String :=
  "invalid-svg-filename-attribute-in-math-expression"

def entityClassesToMapOver : List EntityClass :=
  [EntityClass.GeneralSuggestionModel]

/-- `SuggestionSvgFilenameValidationOneOffJob.map`. -/
def mapFn (env : Env) (item : GeneralSuggestionModel) :
    List (String × PyVal) × DatastoreEffect :=
  if item.targetType ≠ TARGET_TYPE_EXPLORATION then
    ([], DatastoreEffect.noWrite)
  else if item.suggestionType ≠ SUGGESTION_TYPE_EDIT_STATE_CONTENT then
    ([], DatastoreEffect.noWrite)
  else
    let suggestion := env.getSuggestionFromModel item
    let html_string := String.join (env.getAllHtmlContentStrings suggestion)
    let invalid_math_tags :=
      env.validateMathTagsInHtmlWithAttributeMathContent html_string
    if invalid_math_tags.length > 0 then
      ([(ERROR_KEY, PyVal.str item.id)], DatastoreEffect.noWrite)
    else
      let math_tags_with_invalid_svg_filename :=
        env.validateSvgFilenamesInMathRichText
          ENTITY_TYPE_EXPLORATION item.targetId html_string
      if math_tags_with_invalid_svg_filename.length > 0 then
        ([(INVALID_SVG_FILENAME_KEY,
            PyVal.pair (PyVal.str item.id)
              (PyVal.list math_tags_with_invalid_svg_filename))],
          DatastoreEffect.noWrite)
      else
        ([], DatastoreEffect.noWrite)

/-- `ast.literal_eval` restricted to the shape of the values this job's
map yields under `INVALID_SVG_FILENAME_KEY` (a pair of a suggestion id
and a list of invalid math tags); the map yields no other shape under
that key, so the fallback is never reached on real inputs. -/
def literalEvalPair : PyVal → String × List PyVal
  | PyVal.pair (PyVal.str sid) (PyVal.list tags) => (sid, tags)
  | _ => ("", [])

/-- `SuggestionSvgFilenameValidationOneOffJob.reduce`. -/
def reduceFn (key : String) (values : List PyVal) :
    List (String × PyVal) × DatastoreEffect :=
  if key = INVALID_SVG_FILENAME_KEY then
    let final_values := values.map literalEvalPair
    let number_of_math_tags_with_invalid_svg_filename : Nat :=
      final_values.foldl (fun acc p => acc + p.2.length) 0
    let per_suggestion :=
      final_values.map (fun p =>
        ("math tags with no SVGs in suggestion with ID " ++ p.1,
          PyVal.list p.2))
    let final_value_dict := PyVal.dict
      [("number_of_suggestions_with_no_svgs",
          PyVal.int final_values.length),
        ("number_of_math_tags_with_invalid_svg_filename",
          PyVal.int number_of_math_tags_with_invalid_svg_filename)]
    (per_suggestion ++ [("Overall result", final_value_dict)],
      DatastoreEffect.noWrite)
  else
    ([(key, PyVal.list values)], DatastoreEffect.noWrite)

end SuggestionSvgFilenameValidationOneOffJob

namespace SuggestionMathMigrationOneOffJob

def ERROR_KEY_BEFORE_MIGRATION : String := "validation_error"
def ERROR_KEY_AFTER_MIGRATION : String := "validation_error_after_migration"

def entityClassesToMapOver : List EntityClass :=
  [EntityClass.GeneralSuggestionModel]

/-- `SuggestionMathMigrationOneOffJob.map`. -/
def mapFn (env : Env) (item : GeneralSuggestionModel) :
    List (String × PyVal) × DatastoreEffect :=
  let suggestion := env.getSuggestionById item.id
  match env.validate suggestion with
  | some e =>
      ([(ERROR_KEY_BEFORE_MIGRATION,
          PyVal.str ("Suggestion " ++ item.id ++ " failed validation: " ++ e))],
        DatastoreEffect.noWrite)
  | none =>
      let html_string := String.join (env.getAllHtmlContentStrings suggestion)
      let error_list :=
        env.validateMathTagsInHtmlWithAttributeMathContent html_string
      if error_list.length > 0 then
        let migrated := env.convertHtmlInSuggestionChange suggestion
        match env.validate migrated with
        | some e =>
            ([(ERROR_KEY_AFTER_MIGRATION,
                PyVal.str
                  ("Suggestion " ++ item.id ++ " failed validation: " ++ e))],
              DatastoreEffect.noWrite)
        | none =>
            let item' := { item with changeCmd := env.changeToDict migrated }
            ([("suggestion_migrated", PyVal.int 1)],
              DatastoreEffect.put item' false)
      else
        ([], DatastoreEffect.noWrite)

/-- `ast.literal_eval` restricted to the integer values yielded under the
non-error key (`('suggestion_migrated', 1)`). -/
def literalEvalInt : PyVal → Int
  | PyVal.int n => n
  | _ => 0

/-- `SuggestionMathMigrationOneOffJob.reduce`. -/
def reduceFn (key : String) (values : List PyVal) :
    List (String × PyVal) × DatastoreEffect :=
  if key ≠ ERROR_KEY_AFTER_MIGRATION ∧ key ≠ ERROR_KEY_BEFORE_MIGRATION then
    let no_of_suggestions_migrated :=
      (values.map literalEvalInt).foldl (· + ·) 0
    ([(key, PyVal.list
        [PyVal.str (toString no_of_suggestions_migrated ++
          " suggestions successfully migrated.")])],
      DatastoreEffect.noWrite)
  else
    ([(key, PyVal.list values)], DatastoreEffect.noWrite)

end SuggestionMathMigrationOneOffJob

namespace PopulateSuggestionLanguageCodeMigrationOneOffJob

def VALIDATION_ERROR_KEY : String := "validation_error"

def entityClassesToMapOver : List EntityClass :=
  [EntityClass.GeneralSuggestionModel]

/-- `PopulateSuggestionLanguageCodeMigrationOneOffJob.map`. -/
def mapFn (env : Env) (item : GeneralSuggestionModel) :
    List (String × PyVal) × DatastoreEffect :=
  if item.deleted || langTruthy item.languageCode ||
      item.suggestionType = SUGGESTION_TYPE_EDIT_STATE_CONTENT then
    ([], DatastoreEffect.noWrite)
  else
    let suggestion0 := env.getSuggestionFromModel item
    let suggestion :=
      if suggestion0.suggestionType = SUGGESTION_TYPE_ADD_QUESTION then
        { suggestion0 with
            languageCode := some suggestion0.changeQuestionDictLanguageCode }
      else if suggestion0.suggestionType =
          SUGGESTION_TYPE_TRANSLATE_CONTENT then
        { suggestion0 with
            languageCode := some suggestion0.changeLanguageCode }
      else
        suggestion0
    match env.validate suggestion with
    | some e =>
        ([(VALIDATION_ERROR_KEY,
            PyVal.str
              ("Suggestion " ++ item.id ++ " failed validation: " ++ e))],
          DatastoreEffect.noWrite)
    | none =>
        let item' := { item with languageCode := suggestion.languageCode }
        ([(item.suggestionType ++ "_suggestion_migrated",
            PyVal.str item.id)],
          DatastoreEffect.put item' true)

/-- `PopulateSuggestionLanguageCodeMigrationOneOffJob.reduce`. -/
def reduceFn (key : String) (values : List PyVal) :
    List (String × PyVal) × DatastoreEffect :=
  ([(key, PyVal.int values.length)], DatastoreEffect.noWrite)

end PopulateSuggestionLanguageCodeMigrationOneOffJob

/-- Modelled from the spec: the map-reduce execution engine (external to
this file) applies each job's `map` to every stored entity of every class
listed by `entity_classes_to_map_over`; the spec states that each job
"maps over all stored suggestion records". -/
def recordsMappedOver (classes : List EntityClass)
    (store : List GeneralSuggestionModel) : List GeneralSuggestionModel :=
  if EntityClass.GeneralSuggestionModel ∈ classes then store else []

/-! ### Concrete sample inputs and environments (used by witnesses) -/

def sampleSuggestion : SuggestionDomain :=
  { suggestionType := "add_question", languageCode := none,
    changeQuestionDictLanguageCode := "en", changeLanguageCode := "fr",
    payload := 0 }

def sampleItem : GeneralSuggestionModel :=
  { id := "sugg1", targetType := "exploration", targetId := "exp1",
    suggestionType := "edit_exploration_state_content", deleted := false,
    languageCode := none, changeCmd := PyVal.int 0, lastUpdated := 7 }

def baseEnv : Env :=
  { getSuggestionFromModel := fun _ => sampleSuggestion,
    getSuggestionById := fun _ => sampleSuggestion,
    validate := fun _ => none,
    getAllHtmlContentStrings := fun _ => ["<p>x</p>"],
    checkForMathComponentInHtml := fun _ => false,
    validateMathTagsInHtmlWithAttributeMathContent := fun _ => [],
    validateSvgFilenamesInMathRichText := fun _ _ _ => [],
    convertHtmlInSuggestionChange := fun s => s,
    changeToDict := fun _ => PyVal.int 0 }

def envMath : Env :=
  { baseEnv with checkForMathComponentInHtml := fun _ => true }

def envFailValidate : Env :=
  { baseEnv with validate := fun _ => some "bad" }

def envMigrate : Env :=
  { baseEnv with
      validateMathTagsInHtmlWithAttributeMathContent :=
        fun _ => [PyVal.str "tag"],
      changeToDict := fun _ => PyVal.int 5 }

def envFailAfter : Env :=
  { baseEnv with
      validateMathTagsInHtmlWithAttributeMathContent :=
        fun _ => [PyVal.str "tag"],
      convertHtmlInSuggestionChange := fun s => { s with payload := 1 },
      validate := fun s => if s.payload = 0 then none else some "bad2" }

def envSvgInvalid : Env :=
  { baseEnv with
      validateSvgFilenamesInMathRichText := fun _ _ _ => [PyVal.str "svgtag"] }

def popItem : GeneralSuggestionModel :=
  { sampleItem with suggestionType := "add_question" }

def migratedItem : GeneralSuggestionModel :=
  { sampleItem with changeCmd := PyVal.int 5 }

/-! ### Shared helper lemmas -/

theorem foldl_add_snd_length (vs : List (String × List PyVal)) (n : Nat) :
    vs.foldl (fun acc p => acc + p.2.length) n =
      n + (vs.map (fun p => p.2.length)).sum := by
  induction vs generalizing n with
  | nil => simp
  | cons head tail ih => simp [List.foldl_cons, ih]; omega

/-- The datastore effect of `SuggestionMathMigrationOneOffJob.map` is either
no write at all, or a single `put` with `update_last_updated_time=False`
that changes only the `change_cmd` field, and the latter happens only when
the suggestion validates and its HTML has math tags with the old schema. -/
theorem migrationMap_effect_characterization (env : Env)
    (item : GeneralSuggestionModel) :
    (SuggestionMathMigrationOneOffJob.mapFn env item).2 =
        DatastoreEffect.noWrite ∨
    ((env.validateMathTagsInHtmlWithAttributeMathContent (String.join
        (env.getAllHtmlContentStrings (env.getSuggestionById item.id)))).length
        > 0 ∧
      env.validate (env.getSuggestionById item.id) = none ∧
      (SuggestionMathMigrationOneOffJob.mapFn env item).2 =
        DatastoreEffect.put
          { item with changeCmd := (env.changeToDict
              (env.convertHtmlInSuggestionChange
                (env.getSuggestionById item.id))) } false) := by
  rcases hv : env.validate (env.getSuggestionById item.id) with _ | e
  · by_cases hl : 0 < (env.validateMathTagsInHtmlWithAttributeMathContent
        (String.join (env.getAllHtmlContentStrings
          (env.getSuggestionById item.id)))).length
    · rcases hv2 : env.validate (env.convertHtmlInSuggestionChange
          (env.getSuggestionById item.id)) with _ | e2
      · right
        refine ⟨hl, rfl, ?_⟩
        simp [SuggestionMathMigrationOneOffJob.mapFn, hv, hv2, hl]
      · left
        simp [SuggestionMathMigrationOneOffJob.mapFn, hv, hv2, hl]
    · left
      simp [SuggestionMathMigrationOneOffJob.mapFn, hv, hl]
  · left
    simp [SuggestionMathMigrationOneOffJob.mapFn, hv]

/-- Inversion for `PopulateSuggestionLanguageCodeMigrationOneOffJob.map`:
any datastore write is a plain `put` (so `update_last_updated_time` is
`True`) and happens only past the early-exit guard. -/
theorem populateMap_put_inversion (env : Env) (item : GeneralSuggestionModel)
    (r : GeneralSuggestionModel) (b : Bool)
    (h : (PopulateSuggestionLanguageCodeMigrationOneOffJob.mapFn env item).2 =
      DatastoreEffect.put r b) :
    b = true ∧ item.deleted = false ∧ langTruthy item.languageCode = false ∧
      item.suggestionType ≠ SUGGESTION_TYPE_EDIT_STATE_CONTENT := by
  unfold PopulateSuggestionLanguageCodeMigrationOneOffJob.mapFn at h
  by_cases hg : (item.deleted || langTruthy item.languageCode ||
      decide (item.suggestionType = SUGGESTION_TYPE_EDIT_STATE_CONTENT)) = true
  · rw [if_pos hg] at h
    exact absurd h (by simp)
  · have hg' := hg
    simp only [Bool.or_eq_true, decide_eq_true_eq, not_or,
      Bool.not_eq_true] at hg'
    obtain ⟨⟨hd, hl⟩, hs⟩ := hg'
    rw [if_neg hg] at h
    refine ⟨?_, hd, hl, hs⟩
    dsimp only [] at h
    split at h
    · exact absurd h (by simp)
    · injection h with h1 h2
      exact h2.symm

/-! ### Claim theorems -/

/-- C1: `SuggestionMathRteAuditOneOffJob.map` yields the pair
`('Suggestion with Math', item.id)` exactly when the concatenation (in
order) of all HTML content strings of the suggestion built from the
record contains a math component according to the HTML validation
service, and yields nothing otherwise. -/
theorem mathRteAuditMap_yields_iff_math_component (env : Env)
    (item : GeneralSuggestionModel) :
    ((SuggestionMathRteAuditOneOffJob.mapFn env item).1 =
        [("Suggestion with Math", PyVal.str item.id)] ↔
      env.checkForMathComponentInHtml (String.join
        (env.getAllHtmlContentStrings (env.getSuggestionFromModel item))) =
        true) ∧
    (env.checkForMathComponentInHtml (String.join
        (env.getAllHtmlContentStrings (env.getSuggestionFromModel item))) =
        false →
      (SuggestionMathRteAuditOneOffJob.mapFn env item).1 = []) := by
  by_cases h : env.checkForMathComponentInHtml (String.join
      (env.getAllHtmlContentStrings (env.getSuggestionFromModel item))) = true
  · simp [SuggestionMathRteAuditOneOffJob.mapFn, h]
  · simp [SuggestionMathRteAuditOneOffJob.mapFn, h]

theorem mathRteAuditMap_yields_iff_math_component_witness :
    envMath.checkForMathComponentInHtml (String.join
      (envMath.getAllHtmlContentStrings
        (envMath.getSuggestionFromModel sampleItem))) = true ∧
    (SuggestionMathRteAuditOneOffJob.mapFn envMath sampleItem).1 =
      [("Suggestion with Math", PyVal.str sampleItem.id)] :=
  ⟨rfl,
    (mathRteAuditMap_yields_iff_math_component envMath sampleItem).1.mpr rfl⟩

/-- C2: when the suggestion fails validation before any migration is
attempted, `SuggestionMathMigrationOneOffJob.map` yields exactly one pair
under the key `validation_error` containing the suggestion id and the
error, and does not write the record back to the datastore. -/
theorem mathMigrationMap_validation_failure_before (env : Env)
    (item : GeneralSuggestionModel) (e : String)
    (h : env.validate (env.getSuggestionById item.id) = some e) :
    SuggestionMathMigrationOneOffJob.mapFn env item =
      ([("validation_error",
          PyVal.str ("Suggestion " ++ item.id ++ " failed validation: " ++ e))],
        DatastoreEffect.noWrite) := by
  simp [SuggestionMathMigrationOneOffJob.mapFn, h,
    SuggestionMathMigrationOneOffJob.ERROR_KEY_BEFORE_MIGRATION]

theorem mathMigrationMap_validation_failure_before_witness :
    envFailValidate.validate
        (envFailValidate.getSuggestionById sampleItem.id) = some "bad" ∧
    SuggestionMathMigrationOneOffJob.mapFn envFailValidate sampleItem =
      ([("validation_error",
          PyVal.str ("Suggestion " ++ sampleItem.id ++
            " failed validation: " ++ "bad"))],
        DatastoreEffect.noWrite) :=
  ⟨rfl, mathMigrationMap_validation_failure_before envFailValidate sampleItem
    "bad" rfl⟩

/-- C3: when the suggestion validates, its HTML has math tags with the old
schema (so a migration is attempted), and validation fails after the HTML
conversion, `SuggestionMathMigrationOneOffJob.map` yields exactly one pair
under the key `validation_error_after_migration` and does not write the
record back to the datastore. -/
theorem mathMigrationMap_validation_failure_after (env : Env)
    (item : GeneralSuggestionModel) (e : String)
    (h1 : env.validate (env.getSuggestionById item.id) = none)
    (h2 : (env.validateMathTagsInHtmlWithAttributeMathContent (String.join
      (env.getAllHtmlContentStrings
        (env.getSuggestionById item.id)))).length > 0)
    (h3 : env.validate (env.convertHtmlInSuggestionChange
      (env.getSuggestionById item.id)) = some e) :
    SuggestionMathMigrationOneOffJob.mapFn env item =
      ([("validation_error_after_migration",
          PyVal.str ("Suggestion " ++ item.id ++ " failed validation: " ++ e))],
        DatastoreEffect.noWrite) := by
  simp [SuggestionMathMigrationOneOffJob.mapFn, h1, h2, h3,
    SuggestionMathMigrationOneOffJob.ERROR_KEY_AFTER_MIGRATION]

theorem mathMigrationMap_validation_failure_after_witness :
    envFailAfter.validate
        (envFailAfter.getSuggestionById sampleItem.id) = none ∧
    (envFailAfter.validateMathTagsInHtmlWithAttributeMathContent (String.join
      (envFailAfter.getAllHtmlContentStrings
        (envFailAfter.getSuggestionById sampleItem.id)))).length > 0 ∧
    SuggestionMathMigrationOneOffJob.mapFn envFailAfter sampleItem =
      ([("validation_error_after_migration",
          PyVal.str ("Suggestion " ++ sampleItem.id ++
            " failed validation: " ++ "bad2"))],
        DatastoreEffect.noWrite) :=
  ⟨rfl, by decide,
    mathMigrationMap_validation_failure_after envFailAfter sampleItem "bad2"
      rfl (by decide) rfl⟩

/-- C4: `SuggestionMathMigrationOneOffJob.map` writes a stored record back
only when the suggestion's concatenated HTML contains math tags with the
old schema (the invalid-math-tag list is non-empty); any written record
differs from the original in the `change_cmd` field only, and when the
list is empty no write occurs. -/
theorem mathMigrationMap_write_frame (env : Env)
    (item : GeneralSuggestionModel) :
    (∀ r b, (SuggestionMathMigrationOneOffJob.mapFn env item).2 =
        DatastoreEffect.put r b →
      (env.validateMathTagsInHtmlWithAttributeMathContent (String.join
          (env.getAllHtmlContentStrings
            (env.getSuggestionById item.id)))).length > 0 ∧
      r.id = item.id ∧ r.targetType = item.targetType ∧
      r.targetId = item.targetId ∧ r.suggestionType = item.suggestionType ∧
      r.deleted = item.deleted ∧ r.languageCode = item.languageCode ∧
      r.lastUpdated = item.lastUpdated) ∧
    ((env.validateMathTagsInHtmlWithAttributeMathContent (String.join
        (env.getAllHtmlContentStrings
          (env.getSuggestionById item.id)))).length = 0 →
      (SuggestionMathMigrationOneOffJob.mapFn env item).2 =
        DatastoreEffect.noWrite) := by
  rcases migrationMap_effect_characterization env item with hw | ⟨hl, hv, hw⟩
  · constructor
    · intro r b h
      rw [hw] at h
      exact absurd h (by simp)
    · intro _
      exact hw
  · constructor
    · intro r b h
      rw [hw] at h
      injection h with h1 h2
      subst h1
      exact ⟨hl, rfl, rfl, rfl, rfl, rfl, rfl, rfl⟩
    · intro h0
      exact absurd h0 (Nat.pos_iff_ne_zero.mp hl)

theorem mathMigrationMap_write_frame_witness :
    (SuggestionMathMigrationOneOffJob.mapFn envMigrate sampleItem).2 =
      DatastoreEffect.put migratedItem false ∧
    (envMigrate.validateMathTagsInHtmlWithAttributeMathContent (String.join
        (envMigrate.getAllHtmlContentStrings
          (envMigrate.getSuggestionById sampleItem.id)))).length > 0 ∧
    migratedItem.lastUpdated = sampleItem.lastUpdated :=
  ⟨rfl,
    ((mathMigrationMap_write_frame envMigrate sampleItem).1 migratedItem false
        rfl).1,
    ((mathMigrationMap_write_frame envMigrate sampleItem).1 migratedItem false
        rfl).2.2.2.2.2.2.2⟩

/-- C5: every one of the four jobs maps over all stored suggestion
records: each `entity_classes_to_map_over` returns exactly the
`GeneralSuggestionModel` class, and, with the external map-reduce engine
modelled as applying `map` to every stored entity of each listed class,
every stored record is inspected by each job's map. -/
theorem all_jobs_map_over_all_suggestion_records :
    (SuggestionMathRteAuditOneOffJob.entityClassesToMapOver =
        [EntityClass.GeneralSuggestionModel] ∧
      SuggestionSvgFilenameValidationOneOffJob.entityClassesToMapOver =
        [EntityClass.GeneralSuggestionModel] ∧
      SuggestionMathMigrationOneOffJob.entityClassesToMapOver =
        [EntityClass.GeneralSuggestionModel] ∧
      PopulateSuggestionLanguageCodeMigrationOneOffJob.entityClassesToMapOver =
        [EntityClass.GeneralSuggestionModel]) ∧
    ∀ (store : List GeneralSuggestionModel) (item : GeneralSuggestionModel),
      item ∈ store →
        item ∈ recordsMappedOver
            SuggestionMathRteAuditOneOffJob.entityClassesToMapOver store ∧
        item ∈ recordsMappedOver
            SuggestionSvgFilenameValidationOneOffJob.entityClassesToMapOver
            store ∧
        item ∈ recordsMappedOver
            SuggestionMathMigrationOneOffJob.entityClassesToMapOver store ∧
        item ∈ recordsMappedOver
            PopulateSuggestionLanguageCodeMigrationOneOffJob.entityClassesToMapOver
            store := by
  refine ⟨⟨rfl, rfl, rfl, rfl⟩, ?_⟩
  intro store item h
  refine ⟨?_, ?_, ?_, ?_⟩ <;>
    simpa [recordsMappedOver,
      SuggestionMathRteAuditOneOffJob.entityClassesToMapOver,
      SuggestionSvgFilenameValidationOneOffJob.entityClassesToMapOver,
      SuggestionMathMigrationOneOffJob.entityClassesToMapOver,
      PopulateSuggestionLanguageCodeMigrationOneOffJob.entityClassesToMapOver]
      using h

theorem all_jobs_map_over_all_suggestion_records_witness :
    sampleItem ∈ [sampleItem] ∧
    sampleItem ∈ recordsMappedOver
      SuggestionMathRteAuditOneOffJob.entityClassesToMapOver [sampleItem] :=
  ⟨List.mem_singleton.mpr rfl,
    (all_jobs_map_over_all_suggestion_records.2 [sampleItem] sampleItem
        (List.mem_singleton.mpr rfl)).1⟩

/-- C6: for a record targeting an exploration with suggestion type
edit-state-content, the SVG-filename validation map first checks for math
tags with invalid `math_content` attributes: if any exist it yields only
`('invalid-math-content-attribute-in-math-tag', item.id)` and performs no
SVG filename validation; only when none exist does it validate SVG
filenames, yielding the invalid-svg-filename key with the item id and
the invalid tags exactly when that list is non-empty. -/
theorem svgFilenameValidationMap_order_of_checks (env : Env)
    (item : GeneralSuggestionModel)
    (ht : item.targetType = TARGET_TYPE_EXPLORATION)
    (hs : item.suggestionType = SUGGESTION_TYPE_EDIT_STATE_CONTENT) :
    ((env.validateMathTagsInHtmlWithAttributeMathContent (String.join
        (env.getAllHtmlContentStrings
          (env.getSuggestionFromModel item)))) ≠ [] →
      SuggestionSvgFilenameValidationOneOffJob.mapFn env item =
        ([("invalid-math-content-attribute-in-math-tag", PyVal.str item.id)],
          DatastoreEffect.noWrite)) ∧
    ((env.validateMathTagsInHtmlWithAttributeMathContent (String.join
        (env.getAllHtmlContentStrings
          (env.getSuggestionFromModel item)))) = [] →
      SuggestionSvgFilenameValidationOneOffJob.mapFn env item =
        (if (env.validateSvgFilenamesInMathRichText ENTITY_TYPE_EXPLORATION
              item.targetId (String.join (env.getAllHtmlContentStrings
                (env.getSuggestionFromModel item)))).length > 0 then
          [("invalid-svg-filename-attribute-in-math-expression",
            PyVal.pair (PyVal.str item.id)
              (PyVal.list (env.validateSvgFilenamesInMathRichText
                ENTITY_TYPE_EXPLORATION item.targetId (String.join
                  (env.getAllHtmlContentStrings
                    (env.getSuggestionFromModel item))))))]
         else [], DatastoreEffect.noWrite)) := by
  constructor
  · intro h
    have hl : 0 < (env.validateMathTagsInHtmlWithAttributeMathContent
        (String.join (env.getAllHtmlContentStrings
          (env.getSuggestionFromModel item)))).length :=
      List.length_pos.mpr h
    simp [SuggestionSvgFilenameValidationOneOffJob.mapFn, ht, hs, hl,
      SuggestionSvgFilenameValidationOneOffJob.ERROR_KEY]
  · intro h
    by_cases hb : 0 < (env.validateSvgFilenamesInMathRichText
        ENTITY_TYPE_EXPLORATION item.targetId (String.join
          (env.getAllHtmlContentStrings
            (env.getSuggestionFromModel item)))).length <;>
      simp [SuggestionSvgFilenameValidationOneOffJob.mapFn, ht, hs, h, hb,
        SuggestionSvgFilenameValidationOneOffJob.INVALID_SVG_FILENAME_KEY]

theorem svgFilenameValidationMap_order_of_checks_witness :
    SuggestionSvgFilenameValidationOneOffJob.mapFn envSvgInvalid sampleItem =
      (if (envSvgInvalid.validateSvgFilenamesInMathRichText
            ENTITY_TYPE_EXPLORATION sampleItem.targetId (String.join
              (envSvgInvalid.getAllHtmlContentStrings
                (envSvgInvalid.getSuggestionFromModel sampleItem)))).length > 0
        then
          [("invalid-svg-filename-attribute-in-math-expression",
            PyVal.pair (PyVal.str sampleItem.id)
              (PyVal.list (envSvgInvalid.validateSvgFilenamesInMathRichText
                ENTITY_TYPE_EXPLORATION sampleItem.targetId (String.join
                  (envSvgInvalid.getAllHtmlContentStrings
                    (envSvgInvalid.getSuggestionFromModel sampleItem))))))]
        else [], DatastoreEffect.noWrite) :=
  (svgFilenameValidationMap_order_of_checks envSvgInvalid sampleItem rfl
    rfl).2 rfl

def vsSample : List (String × List PyVal) :=
  [("s1", [PyVal.str "t1", PyVal.str "t2"]), ("s2", [])]

def valuesSample : List PyVal :=
  vsSample.map (fun p => PyVal.pair (PyVal.str p.1) (PyVal.list p.2))

theorem literalEvalPair_encode (a : String) (l : List PyVal) :
    SuggestionSvgFilenameValidationOneOffJob.literalEvalPair
      (PyVal.pair (PyVal.str a) (PyVal.list l)) = (a, l) := rfl

/-- C7: for the key `invalid-svg-filename-attribute-in-math-expression`
the SVG-filename validation reduce yields one entry per input value
naming the suggestion id and its invalid math tags, followed by an
`Overall result` dictionary whose `number_of_suggestions_with_no_svgs` is
the number of input values and whose
`number_of_math_tags_with_invalid_svg_filename` is the sum of the lengths
of the invalid-tag lists; for every other key it yields the key and the
values unchanged. -/
theorem svgFilenameValidationReduce_aggregates
    (vs : List (String × List PyVal)) (values : List PyVal)
    (hv : values = vs.map (fun p => PyVal.pair (PyVal.str p.1)
      (PyVal.list p.2))) :
    SuggestionSvgFilenameValidationOneOffJob.reduceFn
        "invalid-svg-filename-attribute-in-math-expression" values =
      (vs.map (fun p =>
          ("math tags with no SVGs in suggestion with ID " ++ p.1,
            PyVal.list p.2)) ++
        [("Overall result", PyVal.dict
          [("number_of_suggestions_with_no_svgs", PyVal.int values.length),
            ("number_of_math_tags_with_invalid_svg_filename",
              PyVal.int (((vs.map (fun p => p.2.length)).sum : Nat)))])],
        DatastoreEffect.noWrite) ∧
    (∀ key, key ≠ "invalid-svg-filename-attribute-in-math-expression" →
      SuggestionSvgFilenameValidationOneOffJob.reduceFn key values =
        ([(key, PyVal.list values)], DatastoreEffect.noWrite)) := by
  constructor
  · subst hv
    simp [SuggestionSvgFilenameValidationOneOffJob.reduceFn,
      SuggestionSvgFilenameValidationOneOffJob.INVALID_SVG_FILENAME_KEY,
      Function.comp_def, literalEvalPair_encode, foldl_add_snd_length]
  · intro key hk
    simp [SuggestionSvgFilenameValidationOneOffJob.reduceFn,
      SuggestionSvgFilenameValidationOneOffJob.INVALID_SVG_FILENAME_KEY, hk]

theorem svgFilenameValidationReduce_aggregates_witness :
    SuggestionSvgFilenameValidationOneOffJob.reduceFn
        "invalid-svg-filename-attribute-in-math-expression" valuesSample =
      (vsSample.map (fun p =>
          ("math tags with no SVGs in suggestion with ID " ++ p.1,
            PyVal.list p.2)) ++
        [("Overall result", PyVal.dict
          [("number_of_suggestions_with_no_svgs",
              PyVal.int valuesSample.length),
            ("number_of_math_tags_with_invalid_svg_filename",
              PyVal.int (((vsSample.map (fun p => p.2.length)).sum : Nat)))])],
        DatastoreEffect.noWrite) ∧
    SuggestionSvgFilenameValidationOneOffJob.reduceFn "other" valuesSample =
      ([("other", PyVal.list valuesSample)], DatastoreEffect.noWrite) :=
  ⟨(svgFilenameValidationReduce_aggregates vsSample valuesSample rfl).1,
    (svgFilenameValidationReduce_aggregates vsSample valuesSample rfl).2
      "other" (by decide)⟩

/-- C8: the populate-language-code map updates the stored `language_code`
only for records that are not deleted, have no language code set, and are
not of suggestion type edit-state-content; for an add-question suggestion
it takes the code from the change's question dict, for a
translate-content suggestion from the change's `language_code`, and after
successful validation it writes the record back with a plain put and
yields the item id under a key derived from the suggestion type. -/
theorem populateLanguageCodeMap_updates (env : Env)
    (item : GeneralSuggestionModel) :
    ((item.deleted = true ∨ langTruthy item.languageCode = true ∨
        item.suggestionType = SUGGESTION_TYPE_EDIT_STATE_CONTENT) →
      PopulateSuggestionLanguageCodeMigrationOneOffJob.mapFn env item =
        ([], DatastoreEffect.noWrite)) ∧
    (∀ r b,
      (PopulateSuggestionLanguageCodeMigrationOneOffJob.mapFn env item).2 =
        DatastoreEffect.put r b →
      item.deleted = false ∧ langTruthy item.languageCode = false ∧
        item.suggestionType ≠ SUGGESTION_TYPE_EDIT_STATE_CONTENT) ∧
    (∀ s0 : SuggestionDomain, env.getSuggestionFromModel item = s0 →
      item.deleted = false → langTruthy item.languageCode = false →
      item.suggestionType ≠ SUGGESTION_TYPE_EDIT_STATE_CONTENT →
      ((s0.suggestionType = SUGGESTION_TYPE_ADD_QUESTION →
        env.validate { s0 with languageCode := some s0.changeQuestionDictLanguageCode } = none →
        PopulateSuggestionLanguageCodeMigrationOneOffJob.mapFn env item =
          ([(item.suggestionType ++ "_suggestion_migrated",
              PyVal.str item.id)],
            DatastoreEffect.put { item with languageCode := some s0.changeQuestionDictLanguageCode } true)) ∧
      (s0.suggestionType = SUGGESTION_TYPE_TRANSLATE_CONTENT →
        env.validate { s0 with languageCode := some s0.changeLanguageCode } = none →
        PopulateSuggestionLanguageCodeMigrationOneOffJob.mapFn env item =
          ([(item.suggestionType ++ "_suggestion_migrated",
              PyVal.str item.id)],
            DatastoreEffect.put { item with languageCode := some s0.changeLanguageCode } true)))) := by
  refine ⟨?_, ?_, ?_⟩
  · intro hg
    have hg' : (item.deleted || langTruthy item.languageCode ||
        decide (item.suggestionType =
          SUGGESTION_TYPE_EDIT_STATE_CONTENT)) = true := by
      rcases hg with h | h | h <;> simp [h]
    simp [PopulateSuggestionLanguageCodeMigrationOneOffJob.mapFn, hg']
  · intro r b h
    exact (populateMap_put_inversion env item r b h).2
  · intro s0 hs0 hd hl hs
    subst hs0
    have hg' : (item.deleted || langTruthy item.languageCode ||
        decide (item.suggestionType =
          SUGGESTION_TYPE_EDIT_STATE_CONTENT)) = false := by
      simp [hd, hl, hs]
    constructor
    · intro hq hv
      rw [hq] at hv
      simp [PopulateSuggestionLanguageCodeMigrationOneOffJob.mapFn, hg', hq,
        hv]
    · intro hq hv
      rw [hq] at hv
      have hne : SUGGESTION_TYPE_TRANSLATE_CONTENT ≠
          SUGGESTION_TYPE_ADD_QUESTION := by decide
      simp [PopulateSuggestionLanguageCodeMigrationOneOffJob.mapFn, hg', hq,
        hne, hv]

theorem populateLanguageCodeMap_updates_witness :
    PopulateSuggestionLanguageCodeMigrationOneOffJob.mapFn baseEnv popItem =
      ([(popItem.suggestionType ++ "_suggestion_migrated",
          PyVal.str popItem.id)],
        DatastoreEffect.put { popItem with languageCode := some sampleSuggestion.changeQuestionDictLanguageCode } true) :=
  ((populateLanguageCodeMap_updates baseEnv popItem).2.2 sampleSuggestion rfl
    rfl rfl (by decide)).1 rfl rfl

/-- C9: the two audit jobs never write to the datastore: for every input,
their map and reduce callbacks only yield key/value pairs and produce no
put, so the stored suggestion records are unchanged by running either
job. -/
theorem audit_jobs_never_write (env : Env) (item : GeneralSuggestionModel)
    (key key2 : String) (values : List String) (values2 : List PyVal) :
    (SuggestionMathRteAuditOneOffJob.mapFn env item).2 =
        DatastoreEffect.noWrite ∧
    (SuggestionMathRteAuditOneOffJob.reduceFn key values).2 =
        DatastoreEffect.noWrite ∧
    (SuggestionSvgFilenameValidationOneOffJob.mapFn env item).2 =
        DatastoreEffect.noWrite ∧
    (SuggestionSvgFilenameValidationOneOffJob.reduceFn key2 values2).2 =
        DatastoreEffect.noWrite := by
  refine ⟨?_, rfl, ?_, ?_⟩
  · unfold SuggestionMathRteAuditOneOffJob.mapFn
    dsimp only []
    split_ifs <;> rfl
  · unfold SuggestionSvgFilenameValidationOneOffJob.mapFn
    dsimp only []
    split_ifs <;> rfl
  · unfold SuggestionSvgFilenameValidationOneOffJob.reduceFn
    dsimp only []
    split_ifs <;> rfl

/-- C10: any write performed by `SuggestionMathMigrationOneOffJob.map`
passes `update_last_updated_time=False`, so the record's last-updated
timestamp is preserved, whereas any write performed by
`PopulateSuggestionLanguageCodeMigrationOneOffJob.map` is a plain put,
which stamps the current time instead. -/
theorem put_lastUpdated_flags (env : Env) (item : GeneralSuggestionModel) :
    (∀ r b, (SuggestionMathMigrationOneOffJob.mapFn env item).2 =
        DatastoreEffect.put r b →
      b = false ∧
      ∀ now, appliedLastUpdated now item (DatastoreEffect.put r b) =
        item.lastUpdated) ∧
    (∀ r b,
      (PopulateSuggestionLanguageCodeMigrationOneOffJob.mapFn env item).2 =
        DatastoreEffect.put r b →
      b = true ∧
      ∀ now, appliedLastUpdated now item (DatastoreEffect.put r b) = now) := by
  constructor
  · intro r b h
    rcases migrationMap_effect_characterization env item with hw | ⟨hl, hv, hw⟩
    · rw [hw] at h
      exact absurd h (by simp)
    · rw [hw] at h
      injection h with h1 h2
      subst h1
      subst h2
      refine ⟨rfl, fun now => ?_⟩
      simp [appliedLastUpdated]
  · intro r b h
    have hb := (populateMap_put_inversion env item r b h).1
    subst hb
    exact ⟨rfl, fun now => by simp [appliedLastUpdated]⟩

theorem put_lastUpdated_flags_witness :
    appliedLastUpdated 99 sampleItem (DatastoreEffect.put migratedItem false) =
      sampleItem.lastUpdated ∧
    appliedLastUpdated 99 popItem (DatastoreEffect.put
      { popItem with languageCode := some "en" } true) = 99 :=
  ⟨((put_lastUpdated_flags envMigrate sampleItem).1 migratedItem false
      rfl).2 99,
    ((put_lastUpdated_flags baseEnv popItem).2
      { popItem with languageCode := some "en" } true rfl).2 99⟩
